import Mathlib

/-!
Shallow embedding of the document-ingestion pipeline of
`ggrc-client/js/components/create-document-button/create-document-button.js`.

The view-model methods `mapDocuments`, `checkDocumentsExist`, `makeAdmin`,
`useExistingDocuments`, `createDocuments`, `refreshPermissionsAndMap` and
`showConfirm` are modelled as pure functions over an environment `Env` that
fixes the behaviour of the external collaborators (the existence service
response, the user answer at the confirmation prompt, the admin-grant result,
the per-file save results, and the permission-refresh result).

Each function returns the list of observable effects it performs (network
posts, modal prompts, event dispatches on the parent instance) together with
the outcome of the jQuery promise it returns.  A jQuery deferred can settle
by resolving or rejecting, can stay pending forever (nobody ever settles it),
or the surrounding synchronous code can throw (a TypeError from a property
access on `undefined`); `POutcome` has one constructor for each of these.

Effect lists record, per call, the effects in the order the call initiates
them; in `mapDocuments` the lists of the two concurrently running branches
are concatenated (existing branch first, matching the order in which the two
branch calls start), so branch-local order is faithful while the cross-branch
interleaving of asynchronous effects is not modelled.
-/

set_option autoImplicit false

/-- Outcome of a jQuery deferred together with the synchronous-throw case. -/
inductive POutcome (α : Type) where
  | resolved (value : α)
  | rejected
  | pending
  | crashed
  deriving DecidableEq, Repr

/-- A file descriptor produced by the gdrive picker: `{id, title}`. -/
structure FileDescriptor where
  id : String
  title : String
  deriving DecidableEq, Repr

/-- Opaque stub of an already-tracked document (`status.object` in the
response of `/api/document/documents_exist`). -/
structure DocStub where
  stub : String
  deriving DecidableEq, Repr

/-- One entry of the existence-service response:
`{gdrive_id, exists, object}`.  The JS field `exists` is a Lean keyword, so
it is rendered `exists_`. -/
structure ExistenceStatus where
  gdrive_id : String
  exists_ : Bool
  object : DocStub
  deriving DecidableEq, Repr

/-- A `Document` model instance.  Two construction paths appear in the
source: `new Document(doc.object)` wrapping an existing stub, and
`new Document({title, source_gdrive_id, context: new Context({id: null})})`
built from a picked file. -/
inductive Document where
  | fromObject (object : DocStub)
  | ofFields (title : String) (source_gdrive_id : String)
  deriving DecidableEq, Repr

/-- Observable effects of the pipeline: network posts, the confirmation
modal, `save` calls, and events dispatched on the parent instance or the
component. -/
inductive Effect where
  | postDocumentsExist (gdrive_ids : List String)
  | postMakeAdmin (gdrive_ids : List String)
  | confirmPrompt (docsCount : Nat)
  | saveDocument (doc : Document)
  | refreshPermissionsCall
  | dispatchBeforeDocumentCreate
  | dispatchDocumentCreateFailed
  | dispatchMapObjects (objects : List Document)
  deriving DecidableEq, Repr

/-- Behaviour of the external collaborators during one pipeline run. -/
structure Env where
  /-- Outcome of the `documents_exist` request. -/
  statuses : POutcome (List ExistenceStatus)
  /-- Holds `true` when the user presses Proceed at the confirmation modal,
  `false` when the user declines. -/
  confirmProceed : Bool
  /-- Whether the `make_admin` request succeeds. -/
  makeAdminOk : Bool
  /-- Whether `instance.save()` succeeds for the document built from a
  given file. -/
  saveOk : FileDescriptor → Bool
  /-- Whether `refreshPermissions()` succeeds. -/
  refreshOk : Bool

/-- Embeds `checkDocumentsExist(files)`: posts the id list to
`/api/document/documents_exist` and returns the service outcome. -/
def checkDocumentsExist (env : Env) (files : List FileDescriptor) :
    List Effect × POutcome (List ExistenceStatus) :=
  ([Effect.postDocumentsExist (files.map (fun file => file.id))], env.statuses)

/-- Embeds `makeAdmin(documents)`: posts the matched gdrive ids to
`/api/document/make_admin`; `Bool` is whether the request succeeds. -/
def makeAdmin (env : Env) (documents : List ExistenceStatus) :
    List Effect × Bool :=
  ([Effect.postMakeAdmin (documents.map (fun document => document.gdrive_id))],
    env.makeAdminOk)

/-- Embeds `showConfirm(documents)`: opens the count-parameterised confirmation
modal; `Bool` is whether the user proceeds. -/
def showConfirm (env : Env) (documents : List ExistenceStatus) :
    List Effect × Bool :=
  ([Effect.confirmPrompt documents.length], env.confirmProceed)

/-- Embeds `useExistingDocuments(documents)`.  Empty input resolves `[]` at once
with no prompt.  Otherwise the confirmation modal is shown; on decline the
deferred is resolved with `[]`; on proceed `makeAdmin` runs and, when it
succeeds, the deferred is resolved with one wrapped `Document` per match.
When `makeAdmin` fails, the only `.then` continuation is a success handler,
so nothing ever settles `dfd`: the returned deferred stays pending. -/
def useExistingDocuments (env : Env) (documents : List ExistenceStatus) :
    List Effect × POutcome (List Document) :=
  if documents.length = 0 then
    ([], POutcome.resolved [])
  else
    let confirmStep := showConfirm env documents
    if confirmStep.2 then
      let adminStep := makeAdmin env documents
      if adminStep.2 then
        (confirmStep.1 ++ adminStep.1,
          POutcome.resolved
            (documents.map (fun doc => Document.fromObject doc.object)))
      else
        (confirmStep.1 ++ adminStep.1, POutcome.pending)
    else
      (confirmStep.1, POutcome.resolved [])

/-- The `Document` built from one picked file inside `createDocuments`. -/
def newDocument (file : FileDescriptor) : Document :=
  Document.ofFields file.title file.id

/-- The loop `statuses.forEach` in `mapDocuments` pushes `files.find(...)` for every
`exists: false` status, and `Array.prototype.find` yields `undefined` when no
file matches; the new-files list therefore holds `Option FileDescriptor`.
`allSome` is `some` of the underlying files exactly when no entry is
`undefined`. -/
def allSome : List (Option FileDescriptor) → Option (List FileDescriptor)
  | [] => some []
  | none :: _ => none
  | some file :: rest => (allSome rest).map (fun files => file :: files)

/-- The `save` calls that `files.map((file) => { ... instance.save(); })`
issues before it reaches the first `undefined` entry and throws. -/
def savePrefix : List (Option FileDescriptor) → List Effect
  | [] => []
  | none :: _ => []
  | some file :: rest =>
    Effect.saveDocument (newDocument file) :: savePrefix rest

/-- Embeds `createDocuments(files)`.  Empty input resolves `[]` with no effects.
Otherwise `BEFORE_DOCUMENT_CREATE` is dispatched synchronously, one document
per file is constructed and saved; reading `file.title` on an `undefined`
entry throws a TypeError (`crashed`).  `$.when(...dfdDocs)` resolves with the
saved documents in input order, and on any failure the `fail` handler
dispatches `DOCUMENT_CREATE_FAILED` and the promise rejects. -/
def createDocuments (env : Env) (files : List (Option FileDescriptor)) :
    List Effect × POutcome (List Document) :=
  if files.length = 0 then
    ([], POutcome.resolved [])
  else
    match allSome files with
    | none =>
      (Effect.dispatchBeforeDocumentCreate :: savePrefix files,
        POutcome.crashed)
    | some fds =>
      let docs := fds.map newDocument
      let saveEffs := docs.map Effect.saveDocument
      if fds.all env.saveOk then
        (Effect.dispatchBeforeDocumentCreate :: saveEffs,
          POutcome.resolved docs)
      else
        (Effect.dispatchBeforeDocumentCreate :: (saveEffs ++
          [Effect.dispatchDocumentCreateFailed]), POutcome.rejected)

/-- The `statuses.forEach` classification inside `mapDocuments`: statuses
with `exists: true` are pushed onto `existingDocuments`; for every other
status `files.find((file) => file.id === status.gdrive_id)` (possibly
`undefined`) is pushed onto `newFiles`. -/
def partitionStatuses (files : List FileDescriptor) :
    List ExistenceStatus → List ExistenceStatus × List (Option FileDescriptor)
  | [] => ([], [])
  | status :: rest =>
    let acc := partitionStatuses files rest
    if status.exists_ then
      (status :: acc.1, acc.2)
    else
      (acc.1, files.find? (fun file => file.id = status.gdrive_id) :: acc.2)

/-- Embeds `refreshPermissionsAndMap(documents)`: for a non-empty list the deferred
is replaced by `refreshPermissions()`; the `MAP_OBJECTS` dispatch is attached
as a success handler only, so it runs for an empty list, or once the refresh
resolves, and is skipped when the refresh rejects.  The function has no
`return` statement, so its caller receives `undefined`, never this deferred:
only the effect list is the result. -/
def refreshPermissionsAndMap (env : Env) (documents : List Document) :
    List Effect :=
  if documents.length = 0 then
    [Effect.dispatchMapObjects documents]
  else if env.refreshOk then
    [Effect.refreshPermissionsCall, Effect.dispatchMapObjects documents]
  else
    [Effect.refreshPermissionsCall]

/-- Join of the two branch promises under
`$.when(useExistingDocuments(...), createDocuments(...))`: a synchronous
throw while the branch calls are being evaluated pre-empts the join; a
rejection of either branch rejects the join even while the other is pending;
otherwise the join waits for both, and when both resolve the merge callback
produces `[...makeArray(existingDocs), ...makeArray(newDocs)]`. -/
def whenBoth : POutcome (List Document) → POutcome (List Document) →
    POutcome (List Document)
  | _, POutcome.crashed => POutcome.crashed
  | POutcome.crashed, _ => POutcome.crashed
  | POutcome.rejected, _ => POutcome.rejected
  | _, POutcome.rejected => POutcome.rejected
  | POutcome.pending, _ => POutcome.pending
  | _, POutcome.pending => POutcome.pending
  | POutcome.resolved exDocs, POutcome.resolved newDocs =>
    POutcome.resolved (exDocs ++ newDocs)

/-- Embeds `mapDocuments(files)`: existence check, partition, concurrent branches,
merge, then `refreshPermissionsAndMap`.  The final `.then` callback returns
the `undefined` result of `refreshPermissionsAndMap`, so when both branches
resolve the promise returned by `mapDocuments` resolves (with `undefined`)
no matter how the permission refresh ends. -/
def mapDocuments (env : Env) (files : List FileDescriptor) :
    List Effect × POutcome Unit :=
  let checkStep := checkDocumentsExist env files
  match checkStep.2 with
  | POutcome.resolved statuses =>
    let parts := partitionStatuses files statuses
    let ex := useExistingDocuments env parts.1
    let nw := createDocuments env parts.2
    match whenBoth ex.2 nw.2 with
    | POutcome.resolved merged =>
      (checkStep.1 ++ ex.1 ++ nw.1 ++ refreshPermissionsAndMap env merged,
        POutcome.resolved ())
    | POutcome.rejected => (checkStep.1 ++ ex.1 ++ nw.1, POutcome.rejected)
    | POutcome.pending => (checkStep.1 ++ ex.1 ++ nw.1, POutcome.pending)
    | POutcome.crashed => (checkStep.1 ++ ex.1 ++ nw.1, POutcome.crashed)
  | POutcome.rejected => (checkStep.1, POutcome.rejected)
  | POutcome.pending => (checkStep.1, POutcome.pending)
  | POutcome.crashed => (checkStep.1, POutcome.crashed)

/-- Second definition for the refinement comparison of the partition step,
following the words of the spec (section 4.2): the new-files list is exactly
the FileDescriptors whose external id has no `exists: true` status. -/
def specNewFiles (files : List FileDescriptor)
    (statuses : List ExistenceStatus) : List FileDescriptor :=
  files.filter (fun file =>
    !(statuses.any (fun status =>
      status.exists_ && status.gdrive_id == file.id)))

/-! Concrete inputs used by counterexamples and witnesses. -/

def fileA : FileDescriptor := ⟨"a", "file a"⟩

def fileB : FileDescriptor := ⟨"b", "file b"⟩

def statusExisting (i : String) : ExistenceStatus := ⟨i, true, ⟨i⟩⟩

def statusNew (i : String) : ExistenceStatus := ⟨i, false, ⟨i⟩⟩

/-- Run where the only file already exists, the user proceeds and the
admin-grant request fails. -/
def envAdminFail : Env :=
  ⟨POutcome.resolved [statusExisting "a"], true, false, fun _ => true, true⟩

/-- Run with an empty file list and an existence service that answers the
empty query with an empty status list. -/
def envEmptyOk : Env :=
  ⟨POutcome.resolved [], true, true, fun _ => true, true⟩

/-- Run where the only file is new, its save succeeds, and the
permission-cache refresh fails. -/
def envRefreshFail : Env :=
  ⟨POutcome.resolved [statusNew "b"], true, true, fun _ => true, false⟩

/-- Run where `fileA` exists, `fileB` is new, and every collaborator
succeeds (the two-file scenario of the spec). -/
def envMixed : Env :=
  ⟨POutcome.resolved [statusExisting "a", statusNew "b"], true, true,
    fun _ => true, true⟩

/-! Helper lemmas about the embedded operations. -/

theorem partitionStatuses_fst (files : List FileDescriptor)
    (statuses : List ExistenceStatus) :
    (partitionStatuses files statuses).1 =
      statuses.filter (fun status => status.exists_) := by
  induction statuses with
  | nil => rfl
  | cons status rest ih =>
      cases h : status.exists_ <;> simp [partitionStatuses, h, ih]

theorem partitionStatuses_snd (files : List FileDescriptor)
    (statuses : List ExistenceStatus) :
    (partitionStatuses files statuses).2 =
      (statuses.filter (fun status => !status.exists_)).map
        (fun status =>
          files.find? (fun file => file.id = status.gdrive_id)) := by
  induction statuses with
  | nil => rfl
  | cons status rest ih =>
      cases h : status.exists_ <;> simp [partitionStatuses, h, ih]

theorem partitionStatuses_length (files : List FileDescriptor)
    (statuses : List ExistenceStatus) :
    (partitionStatuses files statuses).1.length +
      (partitionStatuses files statuses).2.length = statuses.length := by
  induction statuses with
  | nil => rfl
  | cons status rest ih =>
      cases h : status.exists_ <;> simp [partitionStatuses, h] <;> omega

theorem allSome_map_some (fds : List FileDescriptor) :
    allSome (fds.map some) = some fds := by
  induction fds with
  | nil => rfl
  | cons f rest ih => simp [allSome, ih]

theorem allSome_length (files : List (Option FileDescriptor))
    (fds : List FileDescriptor) (h : allSome files = some fds) :
    fds.length = files.length := by
  induction files generalizing fds with
  | nil =>
      simp only [allSome, Option.some.injEq] at h
      subst h; rfl
  | cons o rest ih =>
      cases o with
      | none => simp [allSome] at h
      | some f =>
          simp only [allSome, Option.map_eq_some'] at h
          obtain ⟨l, hl, hfds⟩ := h
          subst hfds
          simp [ih l hl]

theorem allSome_eq_none (files : List (Option FileDescriptor))
    (h : none ∈ files) : allSome files = none := by
  induction files with
  | nil => simp at h
  | cons o rest ih =>
      cases o with
      | none => rfl
      | some f =>
          simp only [List.mem_cons, reduceCtorEq, false_or] at h
          simp [allSome, ih h]

theorem useExistingDocuments_resolved (env : Env)
    (documents : List ExistenceStatus) (docs : List Document)
    (h : (useExistingDocuments env documents).2 = POutcome.resolved docs) :
    docs = [] ∨
      docs = documents.map (fun doc => Document.fromObject doc.object) := by
  unfold useExistingDocuments at h
  by_cases hlen : documents.length = 0
  · simp only [hlen, if_pos] at h
    exact Or.inl (POutcome.resolved.inj h).symm
  · simp only [hlen, if_neg, if_true, if_false] at h
    cases hc : env.confirmProceed <;>
      simp only [showConfirm, makeAdmin, hc] at h
    · exact Or.inl (POutcome.resolved.inj h).symm
    · cases ha : env.makeAdminOk <;> simp only [ha] at h
      · cases h
      · exact Or.inr (POutcome.resolved.inj h).symm

theorem useExistingDocuments_decline (env : Env)
    (documents : List ExistenceStatus)
    (hdecline : env.confirmProceed = false) :
    (useExistingDocuments env documents).2 = POutcome.resolved [] := by
  unfold useExistingDocuments
  by_cases hlen : documents.length = 0 <;>
    simp [hlen, showConfirm, hdecline]

theorem createDocuments_resolved (env : Env)
    (files : List (Option FileDescriptor)) (docs : List Document)
    (h : (createDocuments env files).2 = POutcome.resolved docs) :
    docs.length = files.length := by
  unfold createDocuments at h
  by_cases hlen : files.length = 0
  · simp only [hlen, if_pos] at h
    have hd : docs = [] := (POutcome.resolved.inj h).symm
    simp [hd, hlen]
  · simp only [hlen, if_neg, if_true, if_false] at h
    cases hall : allSome files with
    | none => simp only [hall] at h; cases h
    | some fds =>
        simp only [hall] at h
        cases hok : fds.all env.saveOk <;> simp only [hok] at h
        · cases h
        · have hd : docs = fds.map newDocument :=
            (POutcome.resolved.inj h).symm
          rw [hd, List.length_map, allSome_length files fds hall]

/-! Claim C1. -/

/-- Claim C1 counterexample: in the run `envAdminFail` (one matched existing
document, the user proceeds, the admin-grant request fails) the deferred
returned by `useExistingDocuments` is pending, not rejected, and the
orchestrator promise of `mapDocuments` is pending as well, so no run failure
propagates. -/
theorem useExistingDocuments_adminFail_cex :
    (useExistingDocuments envAdminFail [statusExisting "a"]).2 =
      POutcome.pending ∧
    (useExistingDocuments envAdminFail [statusExisting "a"]).2 ≠
      POutcome.rejected ∧
    (mapDocuments envAdminFail [fileA]).2 = POutcome.pending ∧
    (mapDocuments envAdminFail [fileA]).2 ≠ POutcome.rejected := by
  decide

/-- Claim C1 (amended): for every non-empty list of matched existing
documents where the user proceeds and the admin-grant request fails, the
deferred returned by the existing-document branch never settles: it stays
pending, neither resolving (with an empty or a non-empty list) nor
rejecting, and in a run whose new-document branch resolves the orchestrator
promise returned by `mapDocuments` is pending as well — no run failure is
ever reported. -/
theorem useExistingDocuments_adminFail_pending
    (env : Env) (files : List FileDescriptor)
    (statuses : List ExistenceStatus) (newDocs : List Document)
    (hst : env.statuses = POutcome.resolved statuses)
    (hne : (partitionStatuses files statuses).1 ≠ [])
    (hproceed : env.confirmProceed = true)
    (hadmin : env.makeAdminOk = false)
    (hnw : (createDocuments env (partitionStatuses files statuses).2).2 =
      POutcome.resolved newDocs) :
    (useExistingDocuments env (partitionStatuses files statuses).1).2 =
      POutcome.pending ∧
    (mapDocuments env files).2 = POutcome.pending := by
  have hlen : (partitionStatuses files statuses).1.length ≠ 0 := by
    simpa [List.length_eq_zero] using hne
  have hex : (useExistingDocuments env
      (partitionStatuses files statuses).1).2 = POutcome.pending := by
    unfold useExistingDocuments
    simp [hlen, showConfirm, makeAdmin, hproceed, hadmin]
  refine ⟨hex, ?_⟩
  unfold mapDocuments
  simp only [checkDocumentsExist, hst, hex, hnw, whenBoth]

/-- Concrete instantiation of `useExistingDocuments_adminFail_pending` on the
run `envAdminFail` with the single matched file `fileA`. -/
theorem useExistingDocuments_adminFail_pending_witness :
    envAdminFail.statuses = POutcome.resolved [statusExisting "a"] ∧
    (partitionStatuses [fileA] [statusExisting "a"]).1 ≠ [] ∧
    envAdminFail.confirmProceed = true ∧
    envAdminFail.makeAdminOk = false ∧
    (createDocuments envAdminFail
      (partitionStatuses [fileA] [statusExisting "a"]).2).2 =
        POutcome.resolved [] ∧
    ((useExistingDocuments envAdminFail
      (partitionStatuses [fileA] [statusExisting "a"]).1).2 =
        POutcome.pending ∧
      (mapDocuments envAdminFail [fileA]).2 = POutcome.pending) :=
  ⟨by decide, by decide, by decide, by decide, by decide,
    useExistingDocuments_adminFail_pending envAdminFail [fileA]
      [statusExisting "a"] [] (by decide) (by decide) (by decide)
      (by decide) (by decide)⟩

/-! Claim C2. -/

/-- Claim C2 counterexample: for the empty file list the run issues the
existence query (a network post of `/api/document/documents_exist` with an
empty id list), so it is not the case that no network call occurs. -/
theorem mapDocuments_empty_files_cex :
    Effect.postDocumentsExist [] ∈ (mapDocuments envEmptyOk []).1 ∧
    (mapDocuments envEmptyOk []).1 ≠ [] := by
  decide

/-- Claim C2 (amended): for the empty input list of files `mapDocuments`
still issues exactly one network call, the existence query with an empty id
list; no confirmation prompt, admin-grant, save or permission-refresh call
occurs, and when the existence service answers the empty query with an empty
status list the run completes with a mapping notification carrying the empty
list. -/
theorem mapDocuments_empty_files
    (env : Env) (hst : env.statuses = POutcome.resolved []) :
    (mapDocuments env []).1 =
      [Effect.postDocumentsExist [], Effect.dispatchMapObjects []] ∧
    (mapDocuments env []).2 = POutcome.resolved () := by
  unfold mapDocuments
  simp [checkDocumentsExist, hst, partitionStatuses, useExistingDocuments,
    createDocuments, whenBoth, refreshPermissionsAndMap]

/-- Concrete instantiation of `mapDocuments_empty_files` on the run
`envEmptyOk`. -/
theorem mapDocuments_empty_files_witness :
    envEmptyOk.statuses = POutcome.resolved [] ∧
    ((mapDocuments envEmptyOk []).1 =
      [Effect.postDocumentsExist [], Effect.dispatchMapObjects []] ∧
      (mapDocuments envEmptyOk []).2 = POutcome.resolved ()) :=
  ⟨by decide, mapDocuments_empty_files envEmptyOk (by decide)⟩

/-! Claim C3. -/

/-- Claim C3 counterexample: in the run `envRefreshFail` (one new file whose
save succeeds, then the permission-cache refresh fails) the finalize step is
reached with a non-empty document list, the refresh is called and fails, yet
the promise returned by `mapDocuments` resolves — it does not reject — and
the mapping notification is never dispatched. -/
theorem mapDocuments_refreshFail_cex :
    (mapDocuments envRefreshFail [fileB]).2 = POutcome.resolved () ∧
    (mapDocuments envRefreshFail [fileB]).2 ≠ POutcome.rejected ∧
    (mapDocuments envRefreshFail [fileB]).1 =
      [Effect.postDocumentsExist ["b"],
       Effect.dispatchBeforeDocumentCreate,
       Effect.saveDocument (Document.ofFields "file b" "b"),
       Effect.refreshPermissionsCall] := by
  decide

/-- Claim C3 (amended): for every run that reaches the finalize step with a
non-empty document list, a failure of the permission-cache refresh does not
surface on the promise returned by `mapDocuments`: since
`refreshPermissionsAndMap` never returns its deferred, the run still
resolves; the refresh call is the last observable effect and the
objects-mapped notification is never dispatched — the rejection is silently
dropped. -/
theorem mapDocuments_refreshFail_swallowed
    (env : Env) (files : List FileDescriptor)
    (statuses : List ExistenceStatus) (exDocs newDocs : List Document)
    (hst : env.statuses = POutcome.resolved statuses)
    (hex : (useExistingDocuments env
      (partitionStatuses files statuses).1).2 = POutcome.resolved exDocs)
    (hnw : (createDocuments env
      (partitionStatuses files statuses).2).2 = POutcome.resolved newDocs)
    (hne : exDocs ++ newDocs ≠ [])
    (hrf : env.refreshOk = false) :
    (mapDocuments env files).2 = POutcome.resolved () ∧
    (mapDocuments env files).2 ≠ POutcome.rejected ∧
    (mapDocuments env files).1 =
      (checkDocumentsExist env files).1 ++
      (useExistingDocuments env (partitionStatuses files statuses).1).1 ++
      (createDocuments env (partitionStatuses files statuses).2).1 ++
      [Effect.refreshPermissionsCall] := by
  have hlen : (exDocs ++ newDocs).length ≠ 0 := by
    simpa [List.length_eq_zero] using hne
  unfold mapDocuments
  simp [checkDocumentsExist, hst, hex, hnw, whenBoth,
    refreshPermissionsAndMap, hlen, hrf]
  intro h1 h2
  exact hne (by simp [h1, h2])

/-- Concrete instantiation of `mapDocuments_refreshFail_swallowed` on the
run `envRefreshFail` with the single new file `fileB`. -/
theorem mapDocuments_refreshFail_swallowed_witness :
    envRefreshFail.statuses = POutcome.resolved [statusNew "b"] ∧
    (useExistingDocuments envRefreshFail
      (partitionStatuses [fileB] [statusNew "b"]).1).2 =
        POutcome.resolved [] ∧
    (createDocuments envRefreshFail
      (partitionStatuses [fileB] [statusNew "b"]).2).2 =
        POutcome.resolved [newDocument fileB] ∧
    envRefreshFail.refreshOk = false ∧
    ((mapDocuments envRefreshFail [fileB]).2 = POutcome.resolved () ∧
      (mapDocuments envRefreshFail [fileB]).2 ≠ POutcome.rejected ∧
      (mapDocuments envRefreshFail [fileB]).1 =
        (checkDocumentsExist envRefreshFail [fileB]).1 ++
        (useExistingDocuments envRefreshFail
          (partitionStatuses [fileB] [statusNew "b"]).1).1 ++
        (createDocuments envRefreshFail
          (partitionStatuses [fileB] [statusNew "b"]).2).1 ++
        [Effect.refreshPermissionsCall]) :=
  ⟨by decide, by decide, by decide, by decide,
    mapDocuments_refreshFail_swallowed envRefreshFail [fileB]
      [statusNew "b"] [] [newDocument fileB] (by decide) (by decide)
      (by decide) (by decide) (by decide)⟩

/-! Claim C4. -/

/-- Claim C4: for every run that finalizes (the existence service resolved
with one status per input file and both branches resolved), the finalizer is
invoked with the concatenation of the two branch results; the merged list
size equals the number of admitted existing documents plus the number of
successfully created documents, is at most the number of input files, and
when the confirmation was declined the existing branch contributes zero
documents. -/
theorem mapDocuments_merged_size
    (env : Env) (files : List FileDescriptor)
    (statuses : List ExistenceStatus) (exDocs newDocs : List Document)
    (hst : env.statuses = POutcome.resolved statuses)
    (hlen : statuses.length = files.length)
    (hex : (useExistingDocuments env
      (partitionStatuses files statuses).1).2 = POutcome.resolved exDocs)
    (hnw : (createDocuments env
      (partitionStatuses files statuses).2).2 = POutcome.resolved newDocs) :
    (mapDocuments env files).1 =
      (checkDocumentsExist env files).1 ++
      (useExistingDocuments env (partitionStatuses files statuses).1).1 ++
      (createDocuments env (partitionStatuses files statuses).2).1 ++
      refreshPermissionsAndMap env (exDocs ++ newDocs) ∧
    (exDocs ++ newDocs).length = exDocs.length + newDocs.length ∧
    (exDocs ++ newDocs).length ≤ files.length ∧
    (env.confirmProceed = false → exDocs = []) := by
  have hexlen : exDocs.length ≤ (partitionStatuses files statuses).1.length := by
    rcases useExistingDocuments_resolved env
        (partitionStatuses files statuses).1 exDocs hex with h | h
    · simp [h]
    · simp [h]
  have hnwlen : newDocs.length = (partitionStatuses files statuses).2.length :=
    createDocuments_resolved env (partitionStatuses files statuses).2
      newDocs hnw
  have hsum := partitionStatuses_length files statuses
  refine ⟨?_, List.length_append exDocs newDocs, ?_, ?_⟩
  · unfold mapDocuments
    simp [checkDocumentsExist, hst, hex, hnw, whenBoth]
  · rw [List.length_append]
    omega
  · intro hdecline
    have hres := useExistingDocuments_decline env
      (partitionStatuses files statuses).1 hdecline
    rw [hres] at hex
    exact (POutcome.resolved.inj hex).symm

/-- Concrete instantiation of `mapDocuments_merged_size` on the mixed
two-file run `envMixed` (`fileA` exists and is admitted, `fileB` is created):
two merged documents out of two input files. -/
theorem mapDocuments_merged_size_witness :
    envMixed.statuses =
      POutcome.resolved [statusExisting "a", statusNew "b"] ∧
    ([statusExisting "a", statusNew "b"] :
      List ExistenceStatus).length = ([fileA, fileB] :
        List FileDescriptor).length ∧
    (useExistingDocuments envMixed
      (partitionStatuses [fileA, fileB]
        [statusExisting "a", statusNew "b"]).1).2 =
      POutcome.resolved [Document.fromObject ⟨"a"⟩] ∧
    (createDocuments envMixed
      (partitionStatuses [fileA, fileB]
        [statusExisting "a", statusNew "b"]).2).2 =
      POutcome.resolved [newDocument fileB] ∧
    ((mapDocuments envMixed [fileA, fileB]).1 =
      (checkDocumentsExist envMixed [fileA, fileB]).1 ++
      (useExistingDocuments envMixed
        (partitionStatuses [fileA, fileB]
          [statusExisting "a", statusNew "b"]).1).1 ++
      (createDocuments envMixed
        (partitionStatuses [fileA, fileB]
          [statusExisting "a", statusNew "b"]).2).1 ++
      refreshPermissionsAndMap envMixed
        ([Document.fromObject ⟨"a"⟩] ++ [newDocument fileB]) ∧
    ([Document.fromObject ⟨"a"⟩] ++ [newDocument fileB]).length =
      ([Document.fromObject ⟨"a"⟩] : List Document).length +
        ([newDocument fileB] : List Document).length ∧
    ([Document.fromObject ⟨"a"⟩] ++ [newDocument fileB]).length ≤
      ([fileA, fileB] : List FileDescriptor).length ∧
    (envMixed.confirmProceed = false →
      ([Document.fromObject ⟨"a"⟩] : List Document) = [])) :=
  ⟨by decide, by decide, by decide, by decide,
    mapDocuments_merged_size envMixed [fileA, fileB]
      [statusExisting "a", statusNew "b"]
      [Document.fromObject ⟨"a"⟩] [newDocument fileB]
      (by decide) (by decide) (by decide) (by decide)⟩

/-! Claim C5. -/

/-- Claim C5: for every non-empty list of new files on which every save
succeeds, `createDocuments` resolves with the list of saved documents in
input file order (the document built from the i-th file is the i-th entry),
and the merge step of the orchestrator concatenates the existing-branch list
first and the new-branch list second. -/
theorem createDocuments_success_order
    (env : Env) (fds : List FileDescriptor) (exDocs : List Document)
    (hne : fds ≠ [])
    (hok : ∀ f ∈ fds, env.saveOk f = true) :
    (createDocuments env (fds.map some)).2 =
      POutcome.resolved (fds.map newDocument) ∧
    whenBoth (POutcome.resolved exDocs)
        (createDocuments env (fds.map some)).2 =
      POutcome.resolved (exDocs ++ fds.map newDocument) := by
  have hlen : (fds.map some).length ≠ 0 := by
    simpa [List.length_eq_zero] using hne
  have hall : fds.all env.saveOk = true := by
    rw [List.all_eq_true]
    exact hok
  have hres : (createDocuments env (fds.map some)).2 =
      POutcome.resolved (fds.map newDocument) := by
    unfold createDocuments
    simp [hlen, hne, allSome_map_some, hall]
  exact ⟨hres, by rw [hres]; rfl⟩

/-- Concrete instantiation of `createDocuments_success_order`: both files
are new, both saves succeed, and the merge appends the two fresh documents
after the one existing-branch document. -/
theorem createDocuments_success_order_witness :
    ([fileA, fileB] : List FileDescriptor) ≠ [] ∧
    (∀ f ∈ ([fileA, fileB] : List FileDescriptor),
      envMixed.saveOk f = true) ∧
    ((createDocuments envMixed ([fileA, fileB].map some)).2 =
      POutcome.resolved ([fileA, fileB].map newDocument) ∧
    whenBoth (POutcome.resolved [Document.fromObject ⟨"c"⟩])
        (createDocuments envMixed ([fileA, fileB].map some)).2 =
      POutcome.resolved ([Document.fromObject ⟨"c"⟩] ++
        [fileA, fileB].map newDocument)) :=
  ⟨by decide, by decide,
    createDocuments_success_order envMixed [fileA, fileB]
      [Document.fromObject ⟨"c"⟩] (by decide) (by decide)⟩

/-! Claim C7. -/

/-- Claim C7: for every non-empty list of new files, if any of the
concurrent saves fails the new-document branch dispatches
`DOCUMENT_CREATE_FAILED` on the parent entity and its promise rejects; the
`BEFORE_DOCUMENT_CREATE` dispatch is the first effect of the branch, before
every save, and it is a plain synchronous dispatch whose result nothing
waits on. -/
theorem createDocuments_save_failure
    (env : Env) (fds : List FileDescriptor)
    (hne : fds ≠ [])
    (hfail : ∃ f ∈ fds, env.saveOk f = false) :
    (createDocuments env (fds.map some)).1 =
      Effect.dispatchBeforeDocumentCreate ::
        (fds.map (fun f => Effect.saveDocument (newDocument f)) ++
          [Effect.dispatchDocumentCreateFailed]) ∧
    (createDocuments env (fds.map some)).2 = POutcome.rejected := by
  have hlen : (fds.map some).length ≠ 0 := by
    simpa [List.length_eq_zero] using hne
  have hall : fds.all env.saveOk = false := by
    rcases hfail with ⟨f, hf, hfalse⟩
    rw [Bool.eq_false_iff]
    intro hall
    rw [List.all_eq_true] at hall
    rw [hall f hf] at hfalse
    cases hfalse
  unfold createDocuments
  simp [hlen, hne, allSome_map_some, hall, Function.comp]

/-- Concrete instantiation of `createDocuments_save_failure` on a run where
the save of `fileB` fails while the save of `fileA` succeeds. -/
theorem createDocuments_save_failure_witness :
    ([fileA, fileB] : List FileDescriptor) ≠ [] ∧
    (∃ f ∈ ([fileA, fileB] : List FileDescriptor),
      (fun f => f.id != "b") f = false) ∧
    ((createDocuments
        ⟨POutcome.resolved [], true, true, fun f => f.id != "b", true⟩
        ([fileA, fileB].map some)).1 =
      Effect.dispatchBeforeDocumentCreate ::
        ([fileA, fileB].map
          (fun f => Effect.saveDocument (newDocument f)) ++
          [Effect.dispatchDocumentCreateFailed]) ∧
    (createDocuments
        ⟨POutcome.resolved [], true, true, fun f => f.id != "b", true⟩
        ([fileA, fileB].map some)).2 = POutcome.rejected) :=
  ⟨by decide, by decide,
    createDocuments_save_failure
      ⟨POutcome.resolved [], true, true, fun f => f.id != "b", true⟩
      [fileA, fileB] (by decide) (by decide)⟩

/-! Claim C8. -/

/-- Claim C8: for every run in which every reported file already exists and
the user declines the confirmation prompt, the existing-document branch
resolves with an empty list (declining is not an error), the run performs
exactly the existence query, the prompt and an empty mapping notification —
so the admin-grant service and the creation service are never called — and
the orchestrator promise resolves. -/
theorem mapDocuments_all_exist_decline
    (env : Env) (files : List FileDescriptor)
    (statuses : List ExistenceStatus)
    (hst : env.statuses = POutcome.resolved statuses)
    (hne : statuses ≠ [])
    (hall : ∀ s ∈ statuses, s.exists_ = true)
    (hdecline : env.confirmProceed = false) :
    (useExistingDocuments env (partitionStatuses files statuses).1).2 =
      POutcome.resolved [] ∧
    (mapDocuments env files).1 =
      [Effect.postDocumentsExist (files.map (fun file => file.id)),
       Effect.confirmPrompt statuses.length,
       Effect.dispatchMapObjects []] ∧
    (mapDocuments env files).2 = POutcome.resolved () := by
  have hfst : (partitionStatuses files statuses).1 = statuses := by
    rw [partitionStatuses_fst]
    exact List.filter_eq_self.mpr hall
  have hsnd : (partitionStatuses files statuses).2 = [] := by
    rw [partitionStatuses_snd]
    have : statuses.filter (fun status => !status.exists_) = [] := by
      rw [List.filter_eq_nil_iff]
      intro s hs
      simp [hall s hs]
    rw [this]
    rfl
  have hlen : statuses.length ≠ 0 := by
    simpa [List.length_eq_zero] using hne
  have hue : useExistingDocuments env (partitionStatuses files statuses).1 =
      ([Effect.confirmPrompt statuses.length], POutcome.resolved []) := by
    rw [hfst]
    unfold useExistingDocuments
    simp [hlen, showConfirm, hdecline]
  have hcd : createDocuments env (partitionStatuses files statuses).2 =
      ([], POutcome.resolved []) := by
    rw [hsnd]
    rfl
  refine ⟨by rw [hue], ?_, ?_⟩
  · unfold mapDocuments
    simp [checkDocumentsExist, hst, hue, hcd, whenBoth,
      refreshPermissionsAndMap]
  · unfold mapDocuments
    simp [checkDocumentsExist, hst, hue, hcd, whenBoth]

/-- Concrete instantiation of `mapDocuments_all_exist_decline`: both files
already exist and the user declines. -/
theorem mapDocuments_all_exist_decline_witness :
    (⟨POutcome.resolved [statusExisting "a", statusExisting "b"], false,
        true, fun _ => true, true⟩ : Env).statuses =
      POutcome.resolved [statusExisting "a", statusExisting "b"] ∧
    ([statusExisting "a", statusExisting "b"] :
      List ExistenceStatus) ≠ [] ∧
    (∀ s ∈ ([statusExisting "a", statusExisting "b"] :
      List ExistenceStatus), s.exists_ = true) ∧
    ((useExistingDocuments
        ⟨POutcome.resolved [statusExisting "a", statusExisting "b"], false,
          true, fun _ => true, true⟩
        (partitionStatuses [fileA, fileB]
          [statusExisting "a", statusExisting "b"]).1).2 =
      POutcome.resolved [] ∧
    (mapDocuments
        ⟨POutcome.resolved [statusExisting "a", statusExisting "b"], false,
          true, fun _ => true, true⟩ [fileA, fileB]).1 =
      [Effect.postDocumentsExist ["a", "b"],
       Effect.confirmPrompt 2,
       Effect.dispatchMapObjects []] ∧
    (mapDocuments
        ⟨POutcome.resolved [statusExisting "a", statusExisting "b"], false,
          true, fun _ => true, true⟩ [fileA, fileB]).2 =
      POutcome.resolved ()) :=
  ⟨by decide, by decide, by decide,
    mapDocuments_all_exist_decline
      ⟨POutcome.resolved [statusExisting "a", statusExisting "b"], false,
        true, fun _ => true, true⟩
      [fileA, fileB] [statusExisting "a", statusExisting "b"]
      (by decide) (by decide) (by decide) (by decide)⟩

/-! Claim C9. -/

/-- Claim C9: for the empty merged document list the finalizer skips the
permission-refresh call and still publishes exactly one objects-mapped
notification carrying the empty list; for a non-empty list it publishes
after the refresh resolves, and when the refresh fails nothing is
published. -/
theorem refreshPermissionsAndMap_publish
    (env : Env) (documents : List Document) :
    (documents = [] →
      refreshPermissionsAndMap env documents =
        [Effect.dispatchMapObjects []]) ∧
    (documents ≠ [] → env.refreshOk = true →
      refreshPermissionsAndMap env documents =
        [Effect.refreshPermissionsCall,
         Effect.dispatchMapObjects documents]) ∧
    (documents ≠ [] → env.refreshOk = false →
      refreshPermissionsAndMap env documents =
        [Effect.refreshPermissionsCall]) := by
  refine ⟨?_, ?_, ?_⟩
  · intro h
    subst h
    rfl
  · intro hne hok
    have hlen : documents.length ≠ 0 := by
      simpa [List.length_eq_zero] using hne
    unfold refreshPermissionsAndMap
    simp [hlen, hok]
  · intro hne hfail
    have hlen : documents.length ≠ 0 := by
      simpa [List.length_eq_zero] using hne
    unfold refreshPermissionsAndMap
    simp [hlen, hfail]

/-- Concrete instantiation of `refreshPermissionsAndMap_publish` on the run
`envMixed` with a one-document list: empty list case and both non-empty
cases of the statement at concrete inputs. -/
theorem refreshPermissionsAndMap_publish_witness :
    (([] : List Document) = [] →
      refreshPermissionsAndMap envMixed [] =
        [Effect.dispatchMapObjects []]) ∧
    ([newDocument fileB] ≠ ([] : List Document) ∧
      envMixed.refreshOk = true ∧
      refreshPermissionsAndMap envMixed [newDocument fileB] =
        [Effect.refreshPermissionsCall,
         Effect.dispatchMapObjects [newDocument fileB]]) :=
  ⟨(refreshPermissionsAndMap_publish envMixed []).1,
    by decide, by decide,
    (refreshPermissionsAndMap_publish envMixed [newDocument fileB]).2.1
      (by decide) (by decide)⟩

/-! Claim C10. -/

/-- Claim C10: the partition step places no `undefined` entry in the
new-files list exactly under the precondition that every `exists: false`
status carries a `gdrive_id` equal to some input file id; a status violating
the precondition puts an `undefined` entry into the list handed to
`createDocuments`, whose per-file construction dereferences it (`file.title`,
`file.id`), so the new-document branch crashes instead of settling — it is
not total without the precondition. -/
theorem partitionStatuses_undefined
    (env : Env) (files : List FileDescriptor)
    (statuses : List ExistenceStatus) :
    ((∀ s ∈ statuses, s.exists_ = false →
        ∃ f ∈ files, f.id = s.gdrive_id) →
      none ∉ (partitionStatuses files statuses).2) ∧
    (∀ s ∈ statuses, s.exists_ = false →
      (∀ f ∈ files, f.id ≠ s.gdrive_id) →
      none ∈ (partitionStatuses files statuses).2 ∧
      (createDocuments env (partitionStatuses files statuses).2).2 =
        POutcome.crashed) := by
  constructor
  · intro hpre hmem
    rw [partitionStatuses_snd, List.mem_map] at hmem
    obtain ⟨s, hs, hnone⟩ := hmem
    rw [List.mem_filter] at hs
    obtain ⟨hsmem, hsex⟩ := hs
    have hex : s.exists_ = false := by simpa using hsex
    obtain ⟨f, hf, hid⟩ := hpre s hsmem hex
    rw [List.find?_eq_none] at hnone
    have hneq : ¬ f.id = s.gdrive_id := by simpa using hnone f hf
    exact hneq hid
  · intro s hs hex hnof
    have hfind :
        files.find? (fun file => file.id = s.gdrive_id) = none := by
      rw [List.find?_eq_none]
      intro f hf
      simpa using hnof f hf
    have hmem : none ∈ (partitionStatuses files statuses).2 := by
      rw [partitionStatuses_snd, List.mem_map]
      exact ⟨s, List.mem_filter.mpr ⟨hs, by simp [hex]⟩, hfind⟩
    refine ⟨hmem, ?_⟩
    have hlen : (partitionStatuses files statuses).2.length ≠ 0 := by
      intro h0
      rw [List.length_eq_zero] at h0
      rw [h0] at hmem
      cases hmem
    unfold createDocuments
    simp [hlen, allSome_eq_none _ hmem]

/-- Concrete instantiation of `partitionStatuses_undefined`: the status list
reports an `exists: false` id `"z"` matching no picked file, so an
`undefined` entry reaches `createDocuments` and the branch crashes. -/
theorem partitionStatuses_undefined_witness :
    (statusNew "z" ∈ ([statusNew "z"] : List ExistenceStatus) ∧
      (statusNew "z").exists_ = false ∧
      (∀ f ∈ ([fileA] : List FileDescriptor),
        f.id ≠ (statusNew "z").gdrive_id)) ∧
    (none ∈ (partitionStatuses [fileA] [statusNew "z"]).2 ∧
      (createDocuments envMixed
        (partitionStatuses [fileA] [statusNew "z"]).2).2 =
          POutcome.crashed) :=
  ⟨⟨by decide, by decide, by decide⟩,
    (partitionStatuses_undefined envMixed [fileA] [statusNew "z"]).2
      (statusNew "z") (by decide) (by decide) (by decide)⟩

/-! Claim C6. -/

/-- Claim C6 counterexample: for the file list `[fileA]` and the empty
status list, the id of `fileA` has no `exists: true` status, yet the code
puts nothing into the new-files list (the loop runs over statuses, not over
files), so the partition result differs from the list the spec describes. -/
theorem partitionStatuses_spec_mismatch_cex :
    (partitionStatuses [fileA] []).2 = [] ∧
    specNewFiles [fileA] [] = [fileA] ∧
    (partitionStatuses [fileA] []).2 ≠ (specNewFiles [fileA] []).map some := by
  decide

/-- If the file ids are pairwise distinct, looking a member file up by its
own id finds exactly that file. -/
theorem find?_id_self (files : List FileDescriptor)
    (hnd : (files.map (fun f => f.id)).Nodup)
    (f : FileDescriptor) (hf : f ∈ files) :
    files.find? (fun g => g.id = f.id) = some f := by
  induction files with
  | nil => cases hf
  | cons a rest ih =>
      rw [List.map_cons, List.nodup_cons] at hnd
      obtain ⟨ha, hrest⟩ := hnd
      rcases List.mem_cons.mp hf with heq | hmem
      · subst heq
        exact List.find?_cons_of_pos _ (by simp)
      · have hne : ¬ ((fun g : FileDescriptor => decide (g.id = f.id)) a
            = true) := by
          simp only [decide_eq_true_eq]
          intro he
          exact ha (by rw [he]; exact List.mem_map_of_mem _ hmem)
        rw [show List.find? (fun g : FileDescriptor => decide (g.id = f.id))
              (a :: rest) =
            List.find? (fun g : FileDescriptor => decide (g.id = f.id)) rest
          from List.find?_cons_of_neg rest hne]
        exact ih hrest hmem

/-- Claim C6 (amended): the partition is a pure synchronous classification
(in the embedding it is a total function with no effect list); it puts
exactly the `exists: true` statuses into the existing-documents list for
every status list, and — provided the existence service answered with one
status per input file, keyed by the id of that file, with file ids pairwise
distinct — the new-files list is exactly the FileDescriptors whose id has no
`exists: true` status (each wrapped as a present, non-undefined entry). -/
theorem partitionStatuses_classification
    (files : List FileDescriptor) (statuses : List ExistenceStatus)
    (σ : FileDescriptor → ExistenceStatus)
    (hst : statuses = files.map σ)
    (hid : ∀ f, (σ f).gdrive_id = f.id)
    (hnd : (files.map (fun f => f.id)).Nodup) :
    (partitionStatuses files statuses).1 =
      statuses.filter (fun status => status.exists_) ∧
    (partitionStatuses files statuses).2 =
      (specNewFiles files statuses).map some := by
  refine ⟨partitionStatuses_fst files statuses, ?_⟩
  subst hst
  rw [partitionStatuses_snd, List.filter_map σ, List.map_map]
  have hspec : specNewFiles files (files.map σ) =
      files.filter (fun f => !((σ f).exists_)) := by
    unfold specNewFiles
    refine List.filter_congr ?_
    intro f hf
    congr 1
    cases hex : (σ f).exists_ with
    | true =>
        rw [List.any_eq_true]
        exact ⟨σ f, List.mem_map_of_mem σ hf, by simp [hex, hid f]⟩
    | false =>
        rw [Bool.eq_false_iff]
        intro hany
        rw [List.any_eq_true] at hany
        obtain ⟨s, hsmem, hq⟩ := hany
        rw [List.mem_map] at hsmem
        obtain ⟨g, hg, rfl⟩ := hsmem
        rw [Bool.and_eq_true] at hq
        obtain ⟨hge, hgid⟩ := hq
        have hgid2 : g.id = f.id := by simpa [hid g] using hgid
        have hgf : g = f := List.inj_on_of_nodup_map hnd hg hf hgid2
        rw [hgf] at hge
        simp [hex] at hge
  rw [hspec]
  simp only [Function.comp_def]
  refine List.map_congr_left ?_
  intro f hf
  rw [List.mem_filter] at hf
  simp only [hid f]
  exact find?_id_self files hnd f hf.1

/-- Concrete instantiation of `partitionStatuses_classification` on the
mixed two-file run: `fileA` has an `exists: true` status, `fileB` an
`exists: false` one. -/
theorem partitionStatuses_classification_witness :
    ([statusExisting "a", statusNew "b"] : List ExistenceStatus) =
      [fileA, fileB].map
        (fun f =>
          if f.id = "a" then statusExisting f.id else statusNew f.id) ∧
    (∀ f : FileDescriptor,
      ((fun f : FileDescriptor =>
        if f.id = "a" then statusExisting f.id
        else statusNew f.id) f).gdrive_id = f.id) ∧
    (([fileA, fileB].map (fun f => f.id)).Nodup) ∧
    ((partitionStatuses [fileA, fileB]
        [statusExisting "a", statusNew "b"]).1 =
      [statusExisting "a", statusNew "b"].filter
        (fun status => status.exists_) ∧
    (partitionStatuses [fileA, fileB]
        [statusExisting "a", statusNew "b"]).2 =
      (specNewFiles [fileA, fileB]
        [statusExisting "a", statusNew "b"]).map some) :=
  ⟨by decide,
    (by intro f
        by_cases h : f.id = "a" <;>
          simp [h, statusExisting, statusNew]),
    by decide,
    partitionStatuses_classification [fileA, fileB]
      [statusExisting "a", statusNew "b"]
      (fun f =>
        if f.id = "a" then statusExisting f.id else statusNew f.id)
      (by decide)
      (by intro f
          by_cases h : f.id = "a" <;>
            simp [h, statusExisting, statusNew])
      (by decide)⟩
